import Mathlib

/-!
Verification of the generated plugin registrants of the Docker-Manager
repository.

The repository holds two generated C++ files:

* `src/linux/flutter/generated_plugin_registrant.cc` defining
  `fl_register_plugins(FlPluginRegistry*)`, which obtains a
  `g_autoptr(FlPluginRegistrar)` via
  `fl_plugin_registry_get_registrar_for_plugin(registry, "UrlLauncherPlugin")`
  and passes it to `url_launcher_plugin_register_with_registrar`;
* `src/windows/flutter/generated_plugin_registrant.cc` defining
  `RegisterPlugins(flutter::PluginRegistry*)`, which passes
  `registry->GetRegistrarForPlugin("UrlLauncherWindows")` inline to
  `UrlLauncherWindowsRegisterWithRegistrar`.

Both registries are opaque external handles; the only way this code
interacts with the outside world is through the external calls it issues.
We therefore embed each registry as its lookup behaviour (a function from
plugin-name strings to registrar handles, with the handle type kept
abstract as a type parameter) and each entry point as a function
returning its (void) result together with the ordered trace of external
calls it performs.  The call alphabets list the external entry points
visible to the registrant, including the registration functions of
arbitrary other plugins (which this code never invokes) and, on Linux,
the automatic `g_object_unref` release that `g_autoptr` performs when the
enclosing scope exits.
-/

/-- Handle type of the Linux registrar; kept abstract, a type parameter
`ρ` everywhere.  The Linux plugin registry is embedded by its lookup
behaviour: `fl_plugin_registry_get_registrar_for_plugin(registry, name)`
becomes field application. -/
structure FlPluginRegistry (ρ : Type) where
  fl_plugin_registry_get_registrar_for_plugin : String → ρ

/-- External calls the Linux registrant can issue.  The `result` of a
lookup records what the external registry returned; `g_object_unref` is
the release performed by `g_autoptr` at scope exit.  The constructor
`other_plugin_register_with_registrar` stands for the registration entry
point of any plugin other than the URL launcher; the source never calls
one, which the trace makes checkable. -/
inductive FlCall (ρ : Type) where
  | fl_plugin_registry_get_registrar_for_plugin (name : String) (result : ρ)
  | url_launcher_plugin_register_with_registrar (registrar : ρ)
  | other_plugin_register_with_registrar (plugin : String) (registrar : ρ)
  | g_object_unref (registrar : ρ)

/-- Embedding of `fl_register_plugins` from
`src/linux/flutter/generated_plugin_registrant.cc`: a void function
that acquires a scoped registrar for the literal name
`"UrlLauncherPlugin"`, registers the URL-launcher plugin with it, and,
through `g_autoptr`, releases it when the function returns.  The result
is the (unit) return value paired with the trace of external calls in
execution order. -/
def fl_register_plugins {ρ : Type} (registry : FlPluginRegistry ρ) :
    Unit × List (FlCall ρ) :=
  let url_launcher_linux_registrar :=
    registry.fl_plugin_registry_get_registrar_for_plugin "UrlLauncherPlugin"
  ((),
    [FlCall.fl_plugin_registry_get_registrar_for_plugin "UrlLauncherPlugin"
        url_launcher_linux_registrar,
      FlCall.url_launcher_plugin_register_with_registrar
        url_launcher_linux_registrar,
      FlCall.g_object_unref url_launcher_linux_registrar])

/-- The Windows plugin registry, embedded by its lookup behaviour:
`registry->GetRegistrarForPlugin(name)` becomes field application. -/
structure PluginRegistry (ρ : Type) where
  GetRegistrarForPlugin : String → ρ

/-- External calls the Windows registrant can issue.  As on Linux, the
alphabet includes the registration entry point of any other plugin,
which the source never calls. -/
inductive FlutterCall (ρ : Type) where
  | GetRegistrarForPlugin (name : String) (result : ρ)
  | UrlLauncherWindowsRegisterWithRegistrar (registrar : ρ)
  | OtherPluginRegisterWithRegistrar (plugin : String) (registrar : ρ)

/-- Embedding of `RegisterPlugins` from
`src/windows/flutter/generated_plugin_registrant.cc`: a void function
that looks up the registrar for the literal name `"UrlLauncherWindows"`
inline and forwards it directly to
`UrlLauncherWindowsRegisterWithRegistrar`. -/
def RegisterPlugins {ρ : Type} (registry : PluginRegistry ρ) :
    Unit × List (FlutterCall ρ) :=
  ((),
    [FlutterCall.GetRegistrarForPlugin "UrlLauncherWindows"
        (registry.GetRegistrarForPlugin "UrlLauncherWindows"),
      FlutterCall.UrlLauncherWindowsRegisterWithRegistrar
        (registry.GetRegistrarForPlugin "UrlLauncherWindows")])

/-- The registrar-lookup calls of a Linux trace, as (name, result) pairs. -/
def flLookupCalls {ρ : Type} (t : List (FlCall ρ)) : List (String × ρ) :=
  t.filterMap fun c =>
    match c with
    | FlCall.fl_plugin_registry_get_registrar_for_plugin n r => some (n, r)
    | _ => none

/-- The arguments of the URL-launcher registration calls of a Linux trace. -/
def flRegisterCalls {ρ : Type} (t : List (FlCall ρ)) : List ρ :=
  t.filterMap fun c =>
    match c with
    | FlCall.url_launcher_plugin_register_with_registrar r => some r
    | _ => none

/-- The registration calls of plugins other than the URL launcher in a
Linux trace. -/
def flOtherRegisterCalls {ρ : Type} (t : List (FlCall ρ)) : List (String × ρ) :=
  t.filterMap fun c =>
    match c with
    | FlCall.other_plugin_register_with_registrar p r => some (p, r)
    | _ => none

/-- The registrars released by `g_object_unref` in a Linux trace. -/
def flUnrefCalls {ρ : Type} (t : List (FlCall ρ)) : List ρ :=
  t.filterMap fun c =>
    match c with
    | FlCall.g_object_unref r => some r
    | _ => none

/-- The registrar-lookup calls of a Windows trace. -/
def winLookupCalls {ρ : Type} (t : List (FlutterCall ρ)) : List (String × ρ) :=
  t.filterMap fun c =>
    match c with
    | FlutterCall.GetRegistrarForPlugin n r => some (n, r)
    | _ => none

/-- The arguments of the URL-launcher registration calls of a Windows
trace. -/
def winRegisterCalls {ρ : Type} (t : List (FlutterCall ρ)) : List ρ :=
  t.filterMap fun c =>
    match c with
    | FlutterCall.UrlLauncherWindowsRegisterWithRegistrar r => some r
    | _ => none

/-- The registration calls of plugins other than the URL launcher in a
Windows trace. -/
def winOtherRegisterCalls {ρ : Type} (t : List (FlutterCall ρ)) :
    List (String × ρ) :=
  t.filterMap fun c =>
    match c with
    | FlutterCall.OtherPluginRegisterWithRegistrar p r => some (p, r)
    | _ => none

/-- Platform-neutral view of a registrant's calls, used to compare the
two platforms: a registry lookup, the URL-launcher registration, or the
registration of some other plugin.  The Linux scope-exit release is an
acquisition-idiom artifact and has no counterpart here. -/
inductive RegistrantCall (ρ : Type) where
  | lookup (name : String) (result : ρ)
  | registerUrlLauncher (registrar : ρ)
  | registerOtherPlugin (name : String) (registrar : ρ)

/-- Platform-neutral view of a Linux trace: the `g_object_unref` events
of the scoped-acquisition idiom are dropped, all other calls are kept in
order. -/
def flAbstractCalls {ρ : Type} (t : List (FlCall ρ)) : List (RegistrantCall ρ) :=
  t.filterMap fun c =>
    match c with
    | FlCall.fl_plugin_registry_get_registrar_for_plugin n r =>
        some (RegistrantCall.lookup n r)
    | FlCall.url_launcher_plugin_register_with_registrar r =>
        some (RegistrantCall.registerUrlLauncher r)
    | FlCall.other_plugin_register_with_registrar p r =>
        some (RegistrantCall.registerOtherPlugin p r)
    | FlCall.g_object_unref _ => none

/-- Platform-neutral view of a Windows trace: every call is kept in
order. -/
def winAbstractCalls {ρ : Type} (t : List (FlutterCall ρ)) :
    List (RegistrantCall ρ) :=
  t.filterMap fun c =>
    match c with
    | FlutterCall.GetRegistrarForPlugin n r =>
        some (RegistrantCall.lookup n r)
    | FlutterCall.UrlLauncherWindowsRegisterWithRegistrar r =>
        some (RegistrantCall.registerUrlLauncher r)
    | FlutterCall.OtherPluginRegisterWithRegistrar p r =>
        some (RegistrantCall.registerOtherPlugin p r)

/-- The common responsibility both registrants implement, as described by
the spec, parameterised by the one varying datum: the platform's literal
plugin name.  Given the registry's lookup behaviour it performs one
lookup of that name followed by one URL-launcher registration of the
lookup's result. -/
def genericRegistrantCalls {ρ : Type} (pluginName : String)
    (get : String → ρ) : List (RegistrantCall ρ) :=
  [RegistrantCall.lookup pluginName (get pluginName),
    RegistrantCall.registerUrlLauncher (get pluginName)]

/-- The shape of a call: which external entry point is invoked, and with
which literal plugin name, forgetting the opaque handles exchanged. -/
inductive CallShape where
  | lookup (name : String)
  | registerUrlLauncher
  | registerOtherPlugin (name : String)
  | releaseRegistrar

/-- Shape of a Linux call. -/
def FlCall.shape {ρ : Type} : FlCall ρ → CallShape
  | FlCall.fl_plugin_registry_get_registrar_for_plugin n _ => CallShape.lookup n
  | FlCall.url_launcher_plugin_register_with_registrar _ =>
      CallShape.registerUrlLauncher
  | FlCall.other_plugin_register_with_registrar p _ =>
      CallShape.registerOtherPlugin p
  | FlCall.g_object_unref _ => CallShape.releaseRegistrar

/-- Shape of a Windows call. -/
def FlutterCall.shape {ρ : Type} : FlutterCall ρ → CallShape
  | FlutterCall.GetRegistrarForPlugin n _ => CallShape.lookup n
  | FlutterCall.UrlLauncherWindowsRegisterWithRegistrar _ =>
      CallShape.registerUrlLauncher
  | FlutterCall.OtherPluginRegisterWithRegistrar p _ =>
      CallShape.registerOtherPlugin p

/-- Claim C1: for every valid plugin-registry handle, `fl_register_plugins`
performs exactly one registrar-lookup call, using the literal plugin name
"UrlLauncherPlugin", and exactly one call to
`url_launcher_plugin_register_with_registrar`, whose argument is exactly
the handle that lookup returned. -/
theorem fl_register_plugins_single_lookup_and_register
    {ρ : Type} (registry : FlPluginRegistry ρ) :
    flLookupCalls (fl_register_plugins registry).snd =
      [("UrlLauncherPlugin",
        registry.fl_plugin_registry_get_registrar_for_plugin "UrlLauncherPlugin")] ∧
    flRegisterCalls (fl_register_plugins registry).snd =
      [registry.fl_plugin_registry_get_registrar_for_plugin "UrlLauncherPlugin"] :=
  ⟨rfl, rfl⟩

/-- Claim C2: for every valid plugin-registry handle, `RegisterPlugins`
performs exactly one registrar-lookup call, using the literal plugin name
"UrlLauncherWindows", and exactly one call to
`UrlLauncherWindowsRegisterWithRegistrar`, whose argument is exactly the
handle that lookup returned. -/
theorem RegisterPlugins_single_lookup_and_register
    {ρ : Type} (registry : PluginRegistry ρ) :
    winLookupCalls (RegisterPlugins registry).snd =
      [("UrlLauncherWindows",
        registry.GetRegistrarForPlugin "UrlLauncherWindows")] ∧
    winRegisterCalls (RegisterPlugins registry).snd =
      [registry.GetRegistrarForPlugin "UrlLauncherWindows"] :=
  ⟨rfl, rfl⟩

/-- Claim C3: on both platforms the registrar handle obtained from the
registry lookup is passed unmodified to exactly one downstream
registration call, and no registration function of any other plugin is
ever invoked by either entry point. -/
theorem registrants_forward_unmodified_no_other_plugin
    {ρ σ : Type} (lreg : FlPluginRegistry ρ) (wreg : PluginRegistry σ) :
    flRegisterCalls (fl_register_plugins lreg).snd =
      [lreg.fl_plugin_registry_get_registrar_for_plugin "UrlLauncherPlugin"] ∧
    flOtherRegisterCalls (fl_register_plugins lreg).snd = [] ∧
    winRegisterCalls (RegisterPlugins wreg).snd =
      [wreg.GetRegistrarForPlugin "UrlLauncherWindows"] ∧
    winOtherRegisterCalls (RegisterPlugins wreg).snd = [] :=
  ⟨rfl, rfl, rfl, rfl⟩

/-- Claim C4: both registrants implement the identical responsibility.
Under the platform-neutral view, which forgets the registrar-acquisition
idiom (the Linux scope-exit release), both functions are equal to the one
generic registrant instantiated at their platform's literal plugin name:
the two embedded functions are equal modulo exactly the plugin-name
string and the acquisition idiom. -/
theorem registrants_equal_modulo_plugin_name_and_idiom
    {ρ : Type} (get : String → ρ) :
    flAbstractCalls (fl_register_plugins (FlPluginRegistry.mk get)).snd =
      genericRegistrantCalls "UrlLauncherPlugin" get ∧
    winAbstractCalls (RegisterPlugins (PluginRegistry.mk get)).snd =
      genericRegistrantCalls "UrlLauncherWindows" get :=
  ⟨rfl, rfl⟩

/-- Claim C5: on Linux the registrar is a single-owner, function-scoped
acquisition: `fl_register_plugins` acquires it (one lookup), releases it
exactly once via `g_object_unref`, the release is the last action before
the function returns (and the function has a single straight-line exit
path, so this holds on every exit), and the handle does not escape: the
returned value is the bare unit. -/
theorem fl_register_plugins_scoped_registrar_released
    {ρ : Type} (registry : FlPluginRegistry ρ) :
    flLookupCalls (fl_register_plugins registry).snd =
      [("UrlLauncherPlugin",
        registry.fl_plugin_registry_get_registrar_for_plugin "UrlLauncherPlugin")] ∧
    flUnrefCalls (fl_register_plugins registry).snd =
      [registry.fl_plugin_registry_get_registrar_for_plugin "UrlLauncherPlugin"] ∧
    (fl_register_plugins registry).snd.getLast? =
      some (FlCall.g_object_unref
        (registry.fl_plugin_registry_get_registrar_for_plugin "UrlLauncherPlugin")) ∧
    (fl_register_plugins registry).fst = () :=
  ⟨rfl, rfl, rfl, rfl⟩

/-- Claim C6: each entry point is deterministic with respect to the
external calls it issues: any two invocations, with any registry handles,
produce call sequences of identical shape, and that shape is one lookup
with the fixed platform plugin name followed by one registration of the
lookup's result. -/
theorem registrants_deterministic_call_sequence
    {ρ σ : Type} (r1 : FlPluginRegistry ρ) (r2 : FlPluginRegistry σ)
    (w1 : PluginRegistry ρ) (w2 : PluginRegistry σ) :
    (fl_register_plugins r1).snd.map FlCall.shape =
      (fl_register_plugins r2).snd.map FlCall.shape ∧
    (fl_register_plugins r1).snd.map FlCall.shape =
      [CallShape.lookup "UrlLauncherPlugin", CallShape.registerUrlLauncher,
        CallShape.releaseRegistrar] ∧
    flRegisterCalls (fl_register_plugins r1).snd =
      [r1.fl_plugin_registry_get_registrar_for_plugin "UrlLauncherPlugin"] ∧
    (RegisterPlugins w1).snd.map FlutterCall.shape =
      (RegisterPlugins w2).snd.map FlutterCall.shape ∧
    (RegisterPlugins w1).snd.map FlutterCall.shape =
      [CallShape.lookup "UrlLauncherWindows", CallShape.registerUrlLauncher] ∧
    winRegisterCalls (RegisterPlugins w1).snd =
      [w1.GetRegistrarForPlugin "UrlLauncherWindows"] :=
  ⟨rfl, rfl, rfl, rfl, rfl, rfl⟩

/-- Claim C7: neither registration function contains any error handling:
both are unconditional void procedures.  Even over a handle type with an
explicit null value (`Option`), for every registry — including one whose
lookup yields `none` — each function returns unit and issues exactly the
same fixed straight-line call sequence, forwarding whatever the lookup
returned: no failure is observed, caught, or reported. -/
theorem registrants_no_error_handling
    {ρ σ : Type} (lreg : FlPluginRegistry (Option ρ))
    (wreg : PluginRegistry (Option σ)) :
    fl_register_plugins lreg =
      ((),
        [FlCall.fl_plugin_registry_get_registrar_for_plugin "UrlLauncherPlugin"
            (lreg.fl_plugin_registry_get_registrar_for_plugin "UrlLauncherPlugin"),
          FlCall.url_launcher_plugin_register_with_registrar
            (lreg.fl_plugin_registry_get_registrar_for_plugin "UrlLauncherPlugin"),
          FlCall.g_object_unref
            (lreg.fl_plugin_registry_get_registrar_for_plugin "UrlLauncherPlugin")]) ∧
    RegisterPlugins wreg =
      ((),
        [FlutterCall.GetRegistrarForPlugin "UrlLauncherWindows"
            (wreg.GetRegistrarForPlugin "UrlLauncherWindows"),
          FlutterCall.UrlLauncherWindowsRegisterWithRegistrar
            (wreg.GetRegistrarForPlugin "UrlLauncherWindows")]) :=
  ⟨rfl, rfl⟩

/-- Claim C8: both registration functions are straight-line code that
terminates for every input: for every registry each issues its fixed,
finite call sequence — three external calls on Linux (lookup, register,
scope-exit release), two on Windows — with no branching, looping, or
retry. -/
theorem registrants_straight_line_terminating
    {ρ σ : Type} (lreg : FlPluginRegistry ρ) (wreg : PluginRegistry σ) :
    (fl_register_plugins lreg).snd.length = 3 ∧
    (fl_register_plugins lreg).snd.map FlCall.shape =
      [CallShape.lookup "UrlLauncherPlugin", CallShape.registerUrlLauncher,
        CallShape.releaseRegistrar] ∧
    (RegisterPlugins wreg).snd.length = 2 ∧
    (RegisterPlugins wreg).snd.map FlutterCall.shape =
      [CallShape.lookup "UrlLauncherWindows", CallShape.registerUrlLauncher] :=
  ⟨rfl, rfl, rfl, rfl⟩

/-- Claim C9: both registration entry points produce no output value: for
every input registry the returned value is the bare unit, with no status
or exit code surfaced to the caller. -/
theorem registrants_return_void
    {ρ σ : Type} (lreg : FlPluginRegistry ρ) (wreg : PluginRegistry σ) :
    (fl_register_plugins lreg).fst = () ∧ (RegisterPlugins wreg).fst = () :=
  ⟨rfl, rfl⟩

/-- Claim C10: on Linux the looked-up registrar is forwarded to the
plugin's registration function unconditionally, with no null or validity
check: if the registry returns a null registrar (`none`) for
"UrlLauncherPlugin", that null is still the argument of the one call to
`url_launcher_plugin_register_with_registrar`. -/
theorem fl_register_plugins_forwards_null_registrar
    {ρ : Type} (registry : FlPluginRegistry (Option ρ))
    (h : registry.fl_plugin_registry_get_registrar_for_plugin "UrlLauncherPlugin"
      = none) :
    flRegisterCalls (fl_register_plugins registry).snd = [none] := by
  simp [fl_register_plugins, flRegisterCalls, h]

/-- A registry whose lookup returns a null registrar for every plugin
name, used to exercise the null-forwarding theorem at a concrete input. -/
def nullFlRegistry : FlPluginRegistry (Option Nat) :=
  FlPluginRegistry.mk fun _ => none

/-- Witness for claim C10: on the concrete all-null registry the lookup
for "UrlLauncherPlugin" returns `none` and the registration call receives
that `none`. -/
theorem fl_register_plugins_forwards_null_registrar_witness :
    nullFlRegistry.fl_plugin_registry_get_registrar_for_plugin "UrlLauncherPlugin"
      = none ∧
    flRegisterCalls (fl_register_plugins nullFlRegistry).snd = [none] :=
  ⟨rfl, fl_register_plugins_forwards_null_registrar nullFlRegistry rfl⟩
